import Mathlib

/-
Verification development for the content-fetch-and-normalize pipeline of
src/url_analyzer.py (class URLAnalyzer).  Python strings are modelled as
Lean String (a list of characters); Python dictionaries whose key sets vary
by branch are modelled as a structure with Option fields (none = key
absent).  The field holding the value of the mutable key content is
Option (Option String): the outer layer records key presence, the inner
layer records the Python value (None or a string), which is what dict.get
with a default distinguishes.  The three external collaborators (HTTP GET,
arXiv metadata lookup, model completion) are passed in as function
arguments; a failure outcome of a collaborator models an exception raised
at that call site.
-/

/-- Python substring test helper: is pat a leading sequence of s. -/
def strHasPre : List Char → List Char → Bool
  | [], _ => true
  | _ :: _, [] => false
  | a :: as, b :: bs => if a = b then strHasPre as bs else false

/-- Python membership test pat in s (contiguous substring). -/
def strHasSub (pat : List Char) : List Char → Bool
  | [] => strHasPre pat []
  | c :: cs => if strHasPre pat (c :: cs) = true then true else strHasSub pat cs

/-- Python s.split(sep)[0]: the part of s before the first occurrence of sep
(s itself when sep does not occur). -/
def splitHeadL (sep : List Char) : List Char → List Char
  | [] => []
  | c :: cs =>
    if strHasPre sep (c :: cs) = true ∧ sep ≠ [] then []
    else c :: splitHeadL sep cs

/-- Python s.split(sep)[-1], with explicit fuel (one unit per character, which
always suffices since every recursive step consumes at least one character):
the part of s after the last occurrence of sep under the left-to-right
non-overlapping scan of str.split. -/
def splitLastFuel (sep : List Char) : Nat → List Char → List Char
  | _, [] => []
  | 0, s => s
  | fuel + 1, c :: cs =>
    if strHasPre sep (c :: cs) = true ∧ sep ≠ [] then
      splitLastFuel sep fuel (cs.drop (sep.length - 1))
    else if strHasSub sep cs = true then splitLastFuel sep fuel cs
    else c :: cs

def splitLastL (sep s : List Char) : List Char := splitLastFuel sep s.length s

/-- Python s.replace(pat, rep): replace every non-overlapping occurrence,
scanning left to right (fuel as above). -/
def replaceAllFuel (pat rep : List Char) : Nat → List Char → List Char
  | _, [] => []
  | 0, s => s
  | fuel + 1, c :: cs =>
    if strHasPre pat (c :: cs) = true ∧ pat ≠ [] then
      rep ++ replaceAllFuel pat rep fuel (cs.drop (pat.length - 1))
    else c :: replaceAllFuel pat rep fuel cs

def replaceAllL (pat rep s : List Char) : List Char := replaceAllFuel pat rep s.length s

/-- Python pat in s on String. -/
def pyIn (pat s : String) : Bool := strHasSub pat.data s.data

/-- Python s.split(sep)[0] on String. -/
def pySplitHead (sep s : String) : String := ⟨splitHeadL sep.data s.data⟩

/-- Python s.split(sep)[-1] on String. -/
def pySplitLast (sep s : String) : String := ⟨splitLastL sep.data s.data⟩

/-- Python s.replace(pat, rep) on String. -/
def pyReplace (s pat rep : String) : String := ⟨replaceAllL pat.data rep.data s.data⟩

/-- Python s[:n] for n ≥ 0. -/
def pyTake (s : String) (n : Nat) : String := ⟨s.data.take n⟩

/-- Python len(s). -/
def pyLen (s : String) : Nat := s.data.length

/-- Python ", ".join(xs). -/
def pyJoin (sep : String) : List String → String
  | [] => ""
  | [x] => x
  | x :: y :: xs => x ++ sep ++ pyJoin sep (y :: xs)

/-- Python truthiness of an optional string (None and the empty string are
falsy, every other string is truthy). -/
def pyTruthy : Option String → Bool
  | none => false
  | some s => if s = "" then false else true

/-- Python str() applied to an optional string: None prints as the four
characters None. -/
def pyStrOpt : Option String → String
  | none => "None"
  | some s => s

/-- A paper as returned by the arXiv metadata lookup collaborator. -/
structure ArxivPaper where
  title : String
  authors : List String
  summary : String
deriving DecidableEq

/-- The dictionary returned by URLAnalyzer.fetch_content / fetch_arxiv.
none on an Option field means the key is absent from the dictionary; the
content field carries Option (Option String) because the key, when present,
can hold Python None. -/
structure ContentData where
  url : String
  type : String
  title : Option String := none
  authors : Option (List String) := none
  abstract : Option String := none
  content : Option (Option String) := none
  needs_paste : Bool
deriving DecidableEq

/-- Python content_data.get(content-key, dflt): the default is used only when
the key is absent; a stored None is returned as is. -/
def getContentD (cd : ContentData) (dflt : String) : Option String :=
  match cd.content with
  | none => some dflt
  | some v => v

/-- The body text of a record in the sense of the specification data model:
the abstract for academic-paper records, the content value otherwise. -/
def flatContent (cd : ContentData) : Option String :=
  match cd.content with
  | none => none
  | some v => v

def bodyOf (cd : ContentData) : Option String :=
  if cd.type = "arxiv" then cd.abstract else flatContent cd

/-- True when the record carries any usable text (abstract or content value). -/
def recordHasText (cd : ContentData) : Bool :=
  (bodyOf cd).isSome || (flatContent cd).isSome

abbrev HttpGet := String → String → Nat → Except String String
abbrev ArxivLookup := String → Option ArxivPaper
abbrev Complete := String → Except String String

/-- The fixed User-Agent header value of the generic fetch. -/
def uaHeader : String := "Mozilla/5.0 (compatible; ContentAnalyzer/1.0)"

/-- Paper-id extraction of URLAnalyzer.fetch_arxiv lines 71-76. -/
def extract_paper_id (url : String) : String :=
  if pyIn "abs/" url = true then
    pySplitHead "v" (pySplitLast "abs/" url)
  else if pyIn "pdf/" url = true then
    pySplitHead "v" (pyReplace (pySplitLast "pdf/" url) ".pdf" "")
  else
    pySplitHead "v" (pySplitLast "/" url)

/-- URLAnalyzer.fetch_arxiv: lookup by extracted id; on success a record with
title, authors and abstract (no content key); on any lookup failure the
fallback record with the content key set to None and needs_paste true. -/
def fetch_arxiv (a : ArxivLookup) (url : String) : ContentData :=
  match a (extract_paper_id url) with
  | some paper =>
      { url := url, type := "arxiv", title := some paper.title,
        authors := some paper.authors, abstract := some paper.summary,
        needs_paste := false }
  | none =>
      { url := url, type := "arxiv", content := some none, needs_paste := true }

/-- URLAnalyzer.fetch_content: arXiv URLs are delegated, Twitter/X URLs get a
paste-required record without any fetch, and all other URLs get a single
HTTP GET whose success truncates the text to 50000 characters and whose
failure (exception) yields the unknown fallback record. -/
def fetch_content (g : HttpGet) (a : ArxivLookup) (url : String) : ContentData :=
  if pyIn "arxiv.org" url = true then fetch_arxiv a url
  else if pyIn "twitter.com" url = true ∨ pyIn "x.com" url = true then
    { url := url, type := "tweet", content := some none, needs_paste := true }
  else
    match g url uaHeader 10 with
    | Except.ok text =>
        { url := url, type := "article", content := some (some (pyTake text 50000)),
          needs_paste := false }
    | Except.error _ =>
        { url := url, type := "unknown", content := some none, needs_paste := true }

/-- The fixed instructional preamble (base_prompt) of
URLAnalyzer.create_analysis_prompt, verbatim. -/
def base_prompt : String := "You are an expert at quickly understanding and explaining technical content.\nYour task is to decompress this content into a clear, actionable summary.\n\nProvide your analysis in this EXACT format:\n\n## 📝 ONE-LINER\n[What is this in one clear sentence?]\n\n## 🚀 KEY INNOVATION\n[What's new or important here? 1-2 sentences]\n\n## 💡 WHY IT MATTERS\n[Why should someone care? Impact and relevance. 2-3 sentences]\n\n## 🔍 MAIN INSIGHTS\n• [Key point 1]\n• [Key point 2]\n• [Key point 3]\n• [Add more if needed, up to 5 total]\n\n## ⚙️ HOW IT WORKS\n[Brief explanation of the methodology or approach. 2-3 sentences. Skip if not applicable]\n\n## 📊 KEY RESULTS\n[What did they achieve? Include specific metrics if mentioned. 2-3 sentences]\n\n## ⚠️ LIMITATIONS\n[What are the caveats, limitations, or things to watch out for? 1-2 sentences]\n\n## 🔗 CONNECTIONS\n[How does this relate to other work or trends? 1-2 sentences]\n\n## 🎯 WHO SHOULD READ THIS\n[Specific audience who would benefit most. 1 sentence]\n\n## 📌 TLDR\n[2-3 sentence summary for someone with 30 seconds]\n\n## 🤔 SHOULD YOU READ THE FULL VERSION?\n[Yes/No and specific reason why. 1 sentence]\n\n---\n\nNow analyze this content:\n\n"

/-- The category-dependent content block of create_analysis_prompt.  The
else branch slices the looked-up content value with [:10000]; when that
value is Python None the slice raises TypeError, modelled as none. -/
def content_str_of (content_data : ContentData) : Option String :=
  if content_data.type = "arxiv" then
    some ("\nPAPER: " ++ content_data.title.getD "Unknown"
      ++ "\nAUTHORS: " ++ pyJoin ", " (content_data.authors.getD [])
      ++ "\nURL: " ++ content_data.url
      ++ "\n\nABSTRACT:\n" ++ content_data.abstract.getD "Not available" ++ "\n")
  else if content_data.type = "tweet" then
    some ("\nTWEET/THREAD from " ++ content_data.url ++ ":\n"
      ++ pyStrOpt (getContentD content_data "Content not provided") ++ "\n")
  else
    match getContentD content_data "Content not provided" with
    | none => none
    | some s =>
        some ("\nURL: " ++ content_data.url ++ "\nCONTENT:\n"
          ++ pyTake s 10000 ++ "  # Limit for token management\n")

/-- URLAnalyzer.create_analysis_prompt: preamble plus content block; none
models the uncaught TypeError of the else branch on a stored None. -/
def create_analysis_prompt (content_data : ContentData) : Option String :=
  match content_str_of content_data with
  | none => none
  | some content_str => some (base_prompt ++ content_str)

/-- The rejection message of URLAnalyzer.analyze for paste-required records
without supplied text. -/
def missing_paste_msg : String :=
  "⚠️  This URL requires manual content paste. Please provide the content."

/-- The amendment step of URLAnalyzer.analyze: a truthy pasted text is stored
into the content key of a paste-required record; otherwise the record is
left unchanged. -/
def amend (cd : ContentData) (pasted : Option String) : ContentData :=
  if cd.needs_paste = true ∧ pyTruthy pasted = true then
    { cd with content := some pasted }
  else cd

/-- The tail of URLAnalyzer.analyze: build the prompt and call the model
completion collaborator, catching its failure as a formatted error string. -/
def runModel (complete : Complete) (cd : ContentData) : Option String :=
  match create_analysis_prompt cd with
  | none => none
  | some prompt =>
    match complete prompt with
    | Except.ok t => some t
    | Except.error e => some ("❌ Error calling Claude API: " ++ e)

/-- URLAnalyzer.analyze: fetch, amend with pasted text when needed, reject
paste-required records without text, otherwise format and complete. -/
def analyze (g : HttpGet) (a : ArxivLookup) (complete : Complete)
    (url : String) (pasted : Option String) : Option String :=
  if (fetch_content g a url).needs_paste = true ∧ pyTruthy pasted = false then
    some missing_paste_msg
  else runModel complete (amend (fetch_content g a url) pasted)

/-- The eleven section headers of the preamble, in order of appearance. -/
def section_headers : List String :=
  ["## 📝 ONE-LINER", "## 🚀 KEY INNOVATION", "## 💡 WHY IT MATTERS",
   "## 🔍 MAIN INSIGHTS", "## ⚙️ HOW IT WORKS", "## 📊 KEY RESULTS",
   "## ⚠️ LIMITATIONS", "## 🔗 CONNECTIONS", "## 🎯 WHO SHOULD READ THIS",
   "## 📌 TLDR", "## 🤔 SHOULD YOU READ THE FULL VERSION?"]

/-- Drop everything up to and including the first occurrence of pat; none
when pat does not occur. -/
def dropAfterFirst (pat : List Char) : List Char → Option (List Char)
  | [] => none
  | c :: cs =>
    if strHasPre pat (c :: cs) = true then some ((c :: cs).drop pat.length)
    else dropAfterFirst pat cs

/-- Sequential containment: every listed string occurs, each strictly after
the previous occurrence. -/
def containsInOrder (s : List Char) : List String → Bool
  | [] => true
  | h :: t =>
    match dropAfterFirst h.data s with
    | none => false
    | some rest => containsInOrder rest t

/-- Spec-side definition, from the claim's words (for comparison with the
source's extraction): strip a trailing version suffix consisting of a v
followed by one or more digits, when present. -/
def stripVSuffixSpec (s : String) : String :=
  let r := s.data.reverse
  let ds := r.takeWhile (fun c => c.isDigit)
  if ds ≠ [] ∧ (r.drop ds.length).head? = some 'v' then ⟨((r.drop ds.length).tail).reverse⟩
  else s

/-- Spec-side definition: strip one trailing .pdf extension, when present. -/
def stripPdfSpec (s : String) : String :=
  if strHasPre (".pdf".data.reverse) s.data.reverse = true then ⟨s.data.take (s.data.length - 4)⟩
  else s

/-- Spec-side definition, from the claim's words: identifier extraction by
prefix stripping, trailing .pdf stripping in the pdf branch, and trailing
version-suffix stripping. -/
def spec_extract_paper_id (url : String) : String :=
  if pyIn "abs/" url = true then stripVSuffixSpec (pySplitLast "abs/" url)
  else if pyIn "pdf/" url = true then stripVSuffixSpec (stripPdfSpec (pySplitLast "pdf/" url))
  else stripVSuffixSpec (pySplitLast "/" url)

/-- Spec-side definition for the amended extraction claim: the portion of a
string strictly before its first v character. -/
def truncAtV : List Char → List Char
  | [] => []
  | c :: cs => if c = 'v' then [] else c :: truncAtV cs

/-- Concrete collaborator: an HTTP GET that always fails. -/
def gErr : HttpGet := fun _ _ _ => Except.error "network error"

/-- Concrete collaborator: an arXiv lookup that never finds a paper. -/
def noLookup : ArxivLookup := fun _ => none

/-- Concrete collaborator: the lookup of the end-to-end example of the spec. -/
def exampleLookup : ArxivLookup := fun pid =>
  if pid = "2301.00001" then some ⟨"Example Paper", ["A. One", "B. Two"], "This paper..."⟩
  else none

/-- The resolved record of the end-to-end example. -/
def exampleRec : ContentData := fetch_content gErr exampleLookup "https://arxiv.org/abs/2301.00001"

/-- The content block of the end-to-end example. -/
def exampleBlock : String :=
  "\nPAPER: Example Paper\nAUTHORS: A. One, B. Two\nURL: https://arxiv.org/abs/2301.00001\n\nABSTRACT:\nThis paper...\n"

/-- Concrete collaborator: a 60000-character response body. -/
def text60k : String := ⟨List.replicate 60000 'a'⟩

/-- Concrete collaborator: an HTTP GET returning the 60000-character body. -/
def g60 : HttpGet := fun _ _ _ => Except.ok text60k

/-- Concrete collaborator: an HTTP GET returning a small fixed body. -/
def gHello : HttpGet := fun _ _ _ => Except.ok "hello"

theorem data_append (a b : String) : (a ++ b).data = a.data ++ b.data := by
  cases a; cases b; rfl

theorem strHasPre_self_append (a b : List Char) : strHasPre a (a ++ b) = true := by
  induction a with
  | nil => rfl
  | cons c cs ih => simp [strHasPre, ih]

theorem splitHeadL_single_v (l : List Char) : splitHeadL ['v'] l = truncAtV l := by
  induction l with
  | nil => rfl
  | cons c cs ih =>
    by_cases h : c = 'v'
    · subst h; simp [splitHeadL, truncAtV, strHasPre]
    · simp [splitHeadL, truncAtV, strHasPre, h, ih, Ne.symm h]

/-- C1: classification by fetch_content is first-match-wins on case-sensitive
substring tests: any URL containing arxiv.org yields an academic-paper
record whatever else the URL contains; otherwise a URL containing
twitter.com or x.com yields exactly the social-post record with
needs_paste true and no stored body, and the result is a constant
independent of the HTTP-fetch collaborator, so no fetch call is made. -/
theorem C1_first_match_classification :
    (∀ (g : HttpGet) (a : ArxivLookup) (url : String),
        pyIn "arxiv.org" url = true → (fetch_content g a url).type = "arxiv") ∧
    (∀ (g : HttpGet) (a : ArxivLookup) (url : String),
        pyIn "arxiv.org" url = false →
        (pyIn "twitter.com" url = true ∨ pyIn "x.com" url = true) →
        fetch_content g a url =
          { url := url, type := "tweet", content := some none, needs_paste := true }) := by
  constructor
  · intro g a url h
    unfold fetch_content
    rw [if_pos h]
    unfold fetch_arxiv
    cases a (extract_paper_id url) <;> rfl
  · intro g a url h1 h2
    unfold fetch_content
    have h1' : ¬ (pyIn "arxiv.org" url = true) := by simp [h1]
    rw [if_neg h1', if_pos h2]

/-- C1 witness: both branches of the classification theorem at concrete URLs. -/
theorem C1_witness :
    (fetch_content gErr noLookup "https://arxiv.org/abs/xyz").type = "arxiv" ∧
    fetch_content gErr noLookup "https://twitter.com/u/status/1" =
      { url := "https://twitter.com/u/status/1", type := "tweet",
        content := some none, needs_paste := true } :=
  ⟨C1_first_match_classification.1 gErr noLookup _ (by decide),
   C1_first_match_classification.2 gErr noLookup _ (by decide) (Or.inl (by decide))⟩

/-- C2 counterexample: on the academic-paper URL https://arxiv.org/abs/overview
the code extracts the identifier o (everything before the first v of the
remainder), while the claimed procedure (strip only a trailing v-digits
version suffix) yields overview; so the claim as stated is false. -/
theorem C2_extraction_counterexample :
    extract_paper_id "https://arxiv.org/abs/overview" = "o" ∧
    spec_extract_paper_id "https://arxiv.org/abs/overview" = "overview" ∧
    extract_paper_id "https://arxiv.org/abs/overview" ≠
      spec_extract_paper_id "https://arxiv.org/abs/overview" :=
  ⟨by decide, by decide, by decide⟩

/-- C2 amended: the identifier passed to the lookup is obtained by stripping
the abs/ or pdf/ prefix (or taking the last slash-delimited segment), removing .pdf
occurrences in the pdf branch, and then truncating the remainder strictly
before its FIRST v character (which coincides with stripping a trailing
version suffix whenever the remainder contains no other v); the lookup is
consulted exactly at this identifier; the three example URLs of the claim
all yield 1234.5678. -/
theorem C2_extraction_amended :
    (∀ s : String, pySplitHead "v" s = ⟨truncAtV s.data⟩) ∧
    (∀ (a₁ a₂ : ArxivLookup) (url : String),
        a₁ (extract_paper_id url) = a₂ (extract_paper_id url) →
        fetch_arxiv a₁ url = fetch_arxiv a₂ url) ∧
    extract_paper_id "https://arxiv.org/abs/1234.5678v2" = "1234.5678" ∧
    extract_paper_id "https://arxiv.org/pdf/1234.5678v1.pdf" = "1234.5678" ∧
    extract_paper_id "https://arxiv.org/1234.5678" = "1234.5678" := by
  refine ⟨?_, ?_, by decide, by decide, by decide⟩
  · intro s
    have hv : "v".data = ['v'] := rfl
    unfold pySplitHead
    rw [hv, splitHeadL_single_v]
  · intro a₁ a₂ url h
    unfold fetch_arxiv
    rw [h]

/-- C2 witness: the lookup-dependence conjunct at a concrete URL whose
extracted identifier two distinct lookups treat alike. -/
theorem C2_witness :
    fetch_arxiv noLookup "https://arxiv.org/abs/1234.5678v2" =
      fetch_arxiv (fun pid => if pid = "zzz" then some ⟨"t", [], "s"⟩ else none)
        "https://arxiv.org/abs/1234.5678v2" :=
  C2_extraction_amended.2.1 noLookup _ _ (by decide)

/-- C3 counterexample: a failed generic-document fetch returns a record whose
category field is unknown, not the generic-document category article, so
the category does not remain generic_document as the claim states. -/
theorem C3_category_counterexample :
    (fetch_content gErr noLookup "http://example.com").type = "unknown" ∧
    (fetch_content gErr noLookup "http://example.com").type ≠ "article" :=
  ⟨by decide, by decide⟩

/-- C3 amended: every fetch or lookup failure is caught at the call site and
converted into a well-formed fallback record with no body and needs_paste
true, independent of the failure reason (the record mentions no error
text); but in the generic-document case the category is set to the
unresolved tag unknown rather than remaining article. -/
theorem C3_failure_fallback :
    (∀ (g : HttpGet) (a : ArxivLookup) (url : String) (e : String),
        pyIn "arxiv.org" url = false → pyIn "twitter.com" url = false →
        pyIn "x.com" url = false → g url uaHeader 10 = Except.error e →
        fetch_content g a url =
          { url := url, type := "unknown", content := some none, needs_paste := true }) ∧
    (∀ (g : HttpGet) (a : ArxivLookup) (url : String),
        pyIn "arxiv.org" url = true → a (extract_paper_id url) = none →
        fetch_content g a url =
          { url := url, type := "arxiv", content := some none, needs_paste := true }) := by
  constructor
  · intro g a url e h1 h2 h3 hg
    unfold fetch_content
    simp [h1, h2, h3, hg]
  · intro g a url h1 hl
    unfold fetch_content fetch_arxiv
    simp [h1, hl]

/-- C3 witness: the two fallback branches at concrete URLs and failing
collaborators. -/
theorem C3_witness :
    fetch_content gErr noLookup "http://example.com" =
      { url := "http://example.com", type := "unknown",
        content := some none, needs_paste := true } ∧
    fetch_content gErr noLookup "https://arxiv.org/abs/2999.99999" =
      { url := "https://arxiv.org/abs/2999.99999", type := "arxiv",
        content := some none, needs_paste := true } :=
  ⟨C3_failure_fallback.1 gErr noLookup _ "network error" (by decide) (by decide) (by decide) rfl,
   C3_failure_fallback.2 gErr noLookup _ (by decide) rfl⟩

theorem fetch_hasText (g : HttpGet) (a : ArxivLookup) (url : String)
    (h : (fetch_content g a url).needs_paste = false) :
    recordHasText (fetch_content g a url) = true := by
  unfold fetch_content fetch_arxiv at h ⊢
  by_cases h1 : pyIn "arxiv.org" url = true
  · rw [if_pos h1] at h ⊢
    cases hl : a (extract_paper_id url) <;> simp [hl, recordHasText, bodyOf, flatContent] at h ⊢
  · rw [if_neg h1] at h ⊢
    by_cases h2 : pyIn "twitter.com" url = true ∨ pyIn "x.com" url = true
    · rw [if_pos h2] at h; simp at h
    · rw [if_neg h2] at h ⊢
      cases hg : g url uaHeader 10 <;> simp [hg, recordHasText, bodyOf, flatContent] at h ⊢

theorem amend_hasText (cd : ContentData) (p : Option String)
    (h1 : cd.needs_paste = true) (h2 : pyTruthy p = true) :
    recordHasText (amend cd p) = true := by
  unfold amend
  rw [if_pos ⟨h1, h2⟩]
  cases p with
  | none => simp [pyTruthy] at h2
  | some s => simp [recordHasText, flatContent]

/-- C4: a resolved record with needs_paste true and no supplied text makes
analyze return the manual-input rejection message, a constant independent
of the completion collaborator (so the model is not called); and whenever
the completion collaborator can influence the result of analyze at all,
the record being formatted carries body text (abstract or content). -/
theorem C4_missing_manual_input :
    (∀ (g : HttpGet) (a : ArxivLookup) (complete : Complete) (url : String),
        (fetch_content g a url).needs_paste = true →
        analyze g a complete url none = some missing_paste_msg) ∧
    (∀ (g : HttpGet) (a : ArxivLookup) (c₁ c₂ : Complete) (url : String)
        (pasted : Option String),
        analyze g a c₁ url pasted ≠ analyze g a c₂ url pasted →
        recordHasText (amend (fetch_content g a url) pasted) = true) := by
  constructor
  · intro g a complete url h
    unfold analyze
    rw [if_pos ⟨h, rfl⟩]
  · intro g a c₁ c₂ url pasted hne
    by_cases hr : (fetch_content g a url).needs_paste = true ∧ pyTruthy pasted = false
    · exfalso
      apply hne
      unfold analyze
      rw [if_pos hr, if_pos hr]
    · by_cases hn : (fetch_content g a url).needs_paste = true
      · have ht : pyTruthy pasted = true := by
          cases hp : pyTruthy pasted
          · exact absurd ⟨hn, hp⟩ hr
          · rfl
        exact amend_hasText _ _ hn ht
      · have hn' : (fetch_content g a url).needs_paste = false := by
          cases h : (fetch_content g a url).needs_paste
          · rfl
          · exact absurd h hn
        have hbody := fetch_hasText g a url hn'
        unfold amend
        rw [if_neg fun hc => hn hc.1]
        exact hbody

/-- C4 witness: rejection at a concrete tweet URL, and a concrete generic
fetch where two completions give different results and the record indeed
has body text. -/
theorem C4_witness :
    analyze gErr noLookup (fun _ => Except.ok "A") "https://twitter.com/u/1" none =
      some missing_paste_msg ∧
    recordHasText (amend (fetch_content gHello noLookup "http://example.com") none) = true :=
  ⟨C4_missing_manual_input.1 gErr noLookup _ _ (by decide),
   C4_missing_manual_input.2 gHello noLookup (fun _ => Except.ok "A")
     (fun _ => Except.ok "B") _ none (by decide)⟩

/-- C5: a successful generic-document fetch stores the first 50000 characters
of the response text (so the stored length is min of the response length
and 50000), and formatting that record embeds exactly the first 10000
characters of the stored body into the prompt, hence at most 10000
characters. -/
theorem C5_two_stage_truncation :
    ∀ (g : HttpGet) (a : ArxivLookup) (url text : String),
      pyIn "arxiv.org" url = false → pyIn "twitter.com" url = false →
      pyIn "x.com" url = false → g url uaHeader 10 = Except.ok text →
      (fetch_content g a url).content = some (some (pyTake text 50000)) ∧
      pyLen (pyTake text 50000) = min (pyLen text) 50000 ∧
      create_analysis_prompt (fetch_content g a url) =
        some (base_prompt ++ ("\nURL: " ++ url ++ "\nCONTENT:\n"
          ++ pyTake (pyTake text 50000) 10000 ++ "  # Limit for token management\n")) ∧
      pyLen (pyTake (pyTake text 50000) 10000) ≤ 10000 := by
  intro g a url text h1 h2 h3 hg
  have hrec : fetch_content g a url =
      { url := url, type := "article", content := some (some (pyTake text 50000)),
        needs_paste := false } := by
    unfold fetch_content
    simp [h1, h2, h3, hg]
  refine ⟨by rw [hrec], ?_, ?_, ?_⟩
  · simp [pyLen, pyTake, List.length_take]
    omega
  · rw [hrec]
    unfold create_analysis_prompt content_str_of getContentD
    simp
  · simp [pyLen, pyTake, List.length_take]

/-- C5 witness: a 60000-character response stores exactly 50000 characters
and the embedded slice is within the 10000-character bound. -/
theorem C5_witness :
    (fetch_content g60 noLookup "http://example.com").content =
      some (some (pyTake text60k 50000)) ∧
    pyLen (pyTake text60k 50000) = 50000 ∧
    pyLen (pyTake (pyTake text60k 50000) 10000) ≤ 10000 := by
  have h := C5_two_stage_truncation g60 noLookup "http://example.com" text60k
    (by decide) (by decide) (by decide) rfl
  refine ⟨h.1, ?_, h.2.2.2⟩
  have h3 : pyLen text60k = 60000 := by
    show (List.replicate 60000 'a').length = 60000
    rw [List.length_replicate]
  rw [h.2.1, h3]
  decide

/-- C6: invariant of resolution: whatever the collaborators do, the record
returned by fetch_content has needs_paste true exactly when its body text
(abstract for academic-paper records, content value otherwise) is absent. -/
theorem C6_requires_manual_iff_body_absent :
    ∀ (g : HttpGet) (a : ArxivLookup) (url : String),
      ((fetch_content g a url).needs_paste = true) ↔
        (bodyOf (fetch_content g a url) = none) := by
  intro g a url
  unfold fetch_content fetch_arxiv
  by_cases h1 : pyIn "arxiv.org" url = true
  · rw [if_pos h1]
    cases hl : a (extract_paper_id url) <;> simp [hl, bodyOf, flatContent]
  · rw [if_neg h1]
    by_cases h2 : pyIn "twitter.com" url = true ∨ pyIn "x.com" url = true
    · rw [if_pos h2]; simp [bodyOf, flatContent]
    · rw [if_neg h2]
      cases hg : g url uaHeader 10 <;> simp [hg, bodyOf, flatContent]

/-- C7: every prompt produced by create_analysis_prompt starts with the fixed
instructional preamble; the preamble contains the ten named section headers
followed by the final read-recommendation header, in order; and on the
end-to-end example (arXiv URL, lookup returning Example Paper by A. One
and B. Two) the content block appended to the preamble contains
PAPER: Example Paper, the comma-joined AUTHORS line, the source URL and
the abstract text verbatim. -/
theorem C7_prompt_template :
    (∀ (cd : ContentData) (s : String),
        create_analysis_prompt cd = some s → strHasPre base_prompt.data s.data = true) ∧
    containsInOrder base_prompt.data section_headers = true ∧
    create_analysis_prompt exampleRec = some (base_prompt ++ exampleBlock) ∧
    pyIn "PAPER: Example Paper" exampleBlock = true ∧
    pyIn "AUTHORS: A. One, B. Two" exampleBlock = true ∧
    pyIn "https://arxiv.org/abs/2301.00001" exampleBlock = true ∧
    pyIn "This paper..." exampleBlock = true := by
  refine ⟨?_, by decide, ?_, by decide, by decide, by decide, by decide⟩
  · intro cd s h
    unfold create_analysis_prompt at h
    cases hc : content_str_of cd with
    | none => rw [hc] at h; cases h
    | some cs =>
      rw [hc] at h
      injection h with h
      subst h
      rw [data_append]
      exact strHasPre_self_append _ _
  · have hblock : content_str_of exampleRec = some exampleBlock := by decide
    unfold create_analysis_prompt
    rw [hblock]

/-- C7 witness: the preamble is a leading segment of the example prompt. -/
theorem C7_witness :
    strHasPre base_prompt.data (base_prompt ++ exampleBlock).data = true :=
  C7_prompt_template.1 exampleRec (base_prompt ++ exampleBlock) C7_prompt_template.2.2.1

/-- C8: evaluation of the formatter at the failing inputs: on the social-post
record as returned from resolution (content key present holding None), the
content block appended to the preamble contains the text None and not the
placeholder Content not provided, because dict.get returns the stored None
instead of the default; and on the failed-fetch generic record the
formatter raises (slicing None), modelled as none, instead of rendering
the placeholder. -/
theorem C8_placeholder_bug_eval :
    create_analysis_prompt (fetch_content gErr noLookup "https://twitter.com/u/1") =
      some (base_prompt ++ "\nTWEET/THREAD from https://twitter.com/u/1:\nNone\n") ∧
    pyIn "Content not provided" "\nTWEET/THREAD from https://twitter.com/u/1:\nNone\n" = false ∧
    pyIn "None" "\nTWEET/THREAD from https://twitter.com/u/1:\nNone\n" = true ∧
    create_analysis_prompt (fetch_content gErr noLookup "http://example.com") = none := by
  refine ⟨?_, by decide, by decide, by decide⟩
  have hblock : content_str_of (fetch_content gErr noLookup "https://twitter.com/u/1") =
      some "\nTWEET/THREAD from https://twitter.com/u/1:\nNone\n" := by decide
  unfold create_analysis_prompt
  rw [hblock]

/-- C9: formatting is deterministic: two calls of create_analysis_prompt on
the same record give the same result (the embedding is a pure function of
the record, and the source method performs no mutation of its argument). -/
theorem C9_format_deterministic :
    ∀ (cd : ContentData) (s₁ s₂ : Option String),
      create_analysis_prompt cd = s₁ → create_analysis_prompt cd = s₂ → s₁ = s₂ := by
  intro cd s₁ s₂ h₁ h₂
  rw [← h₁, ← h₂]

/-- C9 witness: the determinism theorem applied at the example record. -/
theorem C9_witness :
    create_analysis_prompt exampleRec = create_analysis_prompt exampleRec :=
  C9_format_deterministic exampleRec _ _ rfl rfl

/-- C10: an empty pasted string is falsy, so analyze on a paste-required
record rejects exactly as with no text at all, independent of the
completion collaborator, and the record is not amended. -/
theorem C10_empty_string_paste :
    ∀ (g : HttpGet) (a : ArxivLookup) (complete : Complete) (url : String),
      (fetch_content g a url).needs_paste = true →
      analyze g a complete url (some "") = some missing_paste_msg ∧
      amend (fetch_content g a url) (some "") = fetch_content g a url := by
  intro g a complete url h
  constructor
  · unfold analyze
    rw [if_pos ⟨h, rfl⟩]
  · unfold amend
    rw [if_neg fun hc => absurd hc.2 (by decide)]

/-- C10 witness: empty-string rejection at a concrete tweet URL. -/
theorem C10_witness :
    analyze gErr noLookup (fun _ => Except.ok "A") "https://twitter.com/u/1" (some "") =
      some missing_paste_msg ∧
    amend (fetch_content gErr noLookup "https://twitter.com/u/1") (some "") =
      fetch_content gErr noLookup "https://twitter.com/u/1" :=
  C10_empty_string_paste gErr noLookup _ _ (by decide)
